import Mathlib

/-!
Shallow embedding of the proxycheck-sdk HTTP request engine and the
request-building helpers, together with theorems about the spec claims.

Embedding conventions:
* JavaScript numbers that can be `NaN` (results of `Number.parseInt`) are
  modelled as `Option Int`, with `none` standing for `NaN`.
* Missing object properties / `undefined` string values are modelled as
  `Option String` with `none` for absent.
* JS truthiness on strings: `none` and `some ""` are falsy.
* JS truthiness on numbers: `none` (`NaN`) and `some 0` are falsy.
* `Date` values are stored as their epoch-millisecond argument.
* `Math.random()` is an explicit rational parameter `rand`.
-/

/-- JS string truthiness for a possibly-missing header value: `undefined` and
the empty string are falsy (`headers[k]` used as a condition in the source). -/
def truthyStr (h : Option String) : Bool :=
  match h with
  | some s => decide (s ≠ "")
  | none => false

/-- JS `h || d` for a possibly-missing string `h`: the default `d` is used when
`h` is `undefined` or the empty string. -/
def jsOrStr (h : Option String) (d : String) : String :=
  match h with
  | some s => if s = "" then d else s
  | none => d

/-- JS string coercion of a possibly-missing string value: `undefined`
stringifies to `"undefined"` (as in `Number.parseInt(undefined, 10)`). -/
def jsToString (h : Option String) : String :=
  match h with
  | some s => s
  | none => "undefined"

/-- Numeric value of the decimal-digit list (used by `parseIntJS`). -/
def digitsVal (ds : List Char) : Nat :=
  ds.foldl (fun acc c => acc * 10 + (c.toNat - 48)) 0

/-- Model of `Number.parseInt(s, 10)`: skip leading whitespace, read an
optional sign and then the longest prefix of decimal digits; `NaN` (here
`none`) when no digit is found. Trailing garbage is ignored, as in JS. -/
def parseIntJS (s : String) : Option Int :=
  let l := s.toList.dropWhile (fun c => c = ' ' || c = '\t' || c = '\n' || c = '\r')
  match l with
  | [] => none
  | c :: rest =>
    if c = '-' then
      let ds := rest.takeWhile Char.isDigit
      if ds.isEmpty then none else some (-(digitsVal ds : Int))
    else if c = '+' then
      let ds := rest.takeWhile Char.isDigit
      if ds.isEmpty then none else some ((digitsVal ds : Int))
    else
      let ds := l.takeWhile Char.isDigit
      if ds.isEmpty then none else some ((digitsVal ds : Int))

/-- Response headers the engine reads (each possibly absent). -/
structure Headers where
  xRateLimitLimit : Option String
  xRateLimitRemaining : Option String
  xRateLimitReset : Option String
  retryAfterHeader : Option String
  xRequestId : Option String
deriving DecidableEq

/-- `RateLimitInfo` from `src/types`: the engine's rate-limit snapshot.
`reset` stores the epoch-millisecond argument of the `Date` constructor. -/
structure RateLimitInfo where
  limit : Option Int
  remaining : Option Int
  reset : Option Int
  retryAfter : Option Int
deriving DecidableEq

/-- The `x-ratelimit-limit` guard plus snapshot construction of
`HttpClient.updateRateLimitInfo` (src/http/index.ts lines 80-91): when the
`x-ratelimit-limit` header is truthy the snapshot is rebuilt from headers,
otherwise the previous state is kept. -/
def updateRateLimitInfo (headers : Headers) (st : Option RateLimitInfo) :
    Option RateLimitInfo :=
  if truthyStr headers.xRateLimitLimit then
    some
      { limit := parseIntJS (jsToString headers.xRateLimitLimit)
        remaining := parseIntJS (jsOrStr headers.xRateLimitRemaining "0")
        reset := (parseIntJS (jsOrStr headers.xRateLimitReset "0")).map (fun n => n * 1000)
        retryAfter := parseIntJS (jsOrStr headers.retryAfterHeader "0") }
  else st

/-- Structured body of an error response (`ErrorResponse` fields the error
factory reads; absent or non-string fields are `none`). -/
structure RawData where
  message : Option String
  error : Option String
deriving DecidableEq

/-- The `response` part of a raw axios failure. -/
structure RawResponse where
  status : Int
  data : RawData
  headers : Headers
deriving DecidableEq

/-- A raw transport failure as axios delivers it: possibly a structured
response, possibly only a code / message / request marker. `isErrorInstance`
records `error instanceof Error`. -/
structure RawError where
  response : Option RawResponse
  code : Option String
  message : Option String
  timeoutMs : Option Int
  hasRequest : Bool
  isErrorInstance : Bool
deriving DecidableEq

/-- The closed set of typed ProxyCheck error variants (src/errors): Base,
APIError, ValidationError, RateLimitError, NetworkError, AuthenticationError,
TimeoutError, with the data fields each constructor stores. -/
inductive PCError where
  | base (message : String) (code : String) (statusCode : Option Int)
  | apiError (message : String) (statusCode : Int) (response : RawData)
      (requestId : Option String)
  | validation (message : String) (field : Option String)
  | rateLimit (message : String) (limit : Option Int) (remaining : Option Int)
      (reset : Option Int) (retryAfter : Option Int)
  | network (message : String) (hasOriginal : Bool)
  | auth (message : String)
  | timeout (message : String) (timeoutMs : Int)
deriving DecidableEq

/-- The `code` property each error class sets in its `super(...)` call. -/
def PCError.code : PCError → String
  | .base _ c _ => c
  | .apiError _ _ _ _ => "API_ERROR"
  | .validation _ _ => "VALIDATION_ERROR"
  | .rateLimit _ _ _ _ _ => "RATE_LIMIT"
  | .network _ _ => "NETWORK_ERROR"
  | .auth _ => "AUTHENTICATION_ERROR"
  | .timeout _ _ => "TIMEOUT_ERROR"

/-- The `statusCode` property: set only by the constructors that pass one to
`super` (RateLimitError fixes 429, AuthenticationError fixes 401). -/
def PCError.statusCode : PCError → Option Int
  | .base _ _ sc => sc
  | .apiError _ sc _ _ => some sc
  | .validation _ _ => none
  | .rateLimit _ _ _ _ _ => some 429
  | .network _ _ => none
  | .auth _ => some 401
  | .timeout _ _ => none

/-- Type guard `isRateLimitError` (instanceof ProxyCheckRateLimitError). -/
def isRateLimitError : PCError → Bool
  | .rateLimit _ _ _ _ _ => true
  | _ => false

/-- Model of `s.includes(pat)` via `splitOn` (used only with `"timeout"`). -/
def jsIncludes (s pat : String) : Bool :=
  decide (2 ≤ (s.splitOn pat).length)

/-- The error factory `createErrorFromResponse` (src/errors): classify a raw
transport failure, in order: structured response with status 429 / 401 /
other, then `ECONNABORTED`, then a message containing "timeout", then the
presence of a request, then the generic base error. -/
def createErrorFromResponse (error : RawError) : PCError :=
  match error.response with
  | some resp =>
    if resp.status = 429 then
      PCError.rateLimit "Rate limit exceeded"
        (parseIntJS (jsOrStr resp.headers.xRateLimitLimit "0"))
        (parseIntJS (jsOrStr resp.headers.xRateLimitRemaining "0"))
        ((parseIntJS (jsOrStr resp.headers.xRateLimitReset "0")).map (fun n => n * 1000))
        (parseIntJS (jsOrStr resp.headers.retryAfterHeader "60"))
    else if resp.status = 401 then
      PCError.auth (resp.data.message.getD "Authentication failed")
    else
      PCError.apiError
        (jsOrStr resp.data.message
          (jsOrStr resp.data.error ("API error: " ++ toString resp.status)))
        resp.status resp.data resp.headers.xRequestId
  | none =>
    if error.code = some "ECONNABORTED" then
      PCError.timeout "Request timed out" (error.timeoutMs.getD 0)
    else if (match error.message with
             | some m => jsIncludes m "timeout"
             | none => false) then
      PCError.timeout "Request timed out" 0
    else if error.hasRequest then
      PCError.network "Network error occurred" error.isErrorInstance
    else
      PCError.base (error.message.getD "An unknown error occurred") "API_ERROR" none

/-- The network-code fallthrough of `isRetryableError`: retry when the `code`
field is `NETWORK_ERROR` or `TIMEOUT_ERROR`. -/
def retryableCode (error : PCError) : Bool :=
  decide (error.code = "NETWORK_ERROR") || decide (error.code = "TIMEOUT_ERROR")

/-- `HttpClient.isRetryableError` (src/http/index.ts lines 110-137): a present
numeric `statusCode` in [400, 500) returns the rate-limit guard, at least 500
returns true; otherwise (including statusCode below 400 or absent) fall
through to the network/timeout code check. -/
def isRetryableError (error : PCError) : Bool :=
  match error.statusCode with
  | some sc =>
    if 400 ≤ sc ∧ sc < 500 then isRateLimitError error
    else if 500 ≤ sc then true
    else retryableCode error
  | none => retryableCode error

/-- `HttpClient.calculateDelay` (src/http/index.ts lines 103-105):
`baseDelay * 2 ** attempt + Math.random() * 1000`, with the random draw made
an explicit parameter `rand`. -/
def calculateDelay (attempt : Nat) (baseDelay rand : ℚ) : ℚ :=
  baseDelay * 2 ^ attempt + rand * 1000

/-- The delay chosen before a retry (src/http/index.ts lines 196-201): the
exponential backoff, overridden by `retryAfter * 1000` when the error is a
rate-limit error whose `retryAfter` is truthy (non-zero, non-NaN). -/
def computeRetryDelay (attempt : Nat) (baseDelay rand : ℚ) (e : PCError) : ℚ :=
  match e with
  | PCError.rateLimit _ _ _ _ (some r) =>
    if r ≠ 0 then (r : ℚ) * 1000 else calculateDelay attempt baseDelay rand
  | _ => calculateDelay attempt baseDelay rand

/-- A successful raw transport response carrying a parsed body of type `T`. -/
structure SuccessResponse (T : Type) where
  status : Int
  data : T
  headers : Headers

/-- One raw transport outcome: the axios layer either resolves with a
response or rejects with a raw failure. -/
inductive RawOutcome (T : Type) where
  | ok (resp : SuccessResponse T)
  | err (raw : RawError)

/-- The response interceptor (src/http/index.ts lines 62-74) applied to one
transport outcome: on success the rate-limit snapshot is updated from the
response headers; on failure the snapshot is updated when the failure carries
a response, and the failure is mapped through `createErrorFromResponse`. -/
def axiosAttempt {T : Type} (st : Option RateLimitInfo) (o : RawOutcome T) :
    Option RateLimitInfo × Except PCError T :=
  match o with
  | RawOutcome.ok resp => (updateRateLimitInfo resp.headers st, Except.ok resp.data)
  | RawOutcome.err raw =>
    let st2 := match raw.response with
      | some r => updateRateLimitInfo r.headers st
      | none => st
    (st2, Except.error (createErrorFromResponse raw))

/-- Observable outcome of one `request()` call: the returned body or the
raised typed error, the number of transport attempts performed, and the list
of backoff delays awaited between attempts. -/
structure RequestTrace (T : Type) where
  result : Except PCError T
  attempts : Nat
  delays : List ℚ

/-- The retry loop of `HttpClient.request` (src/http/index.ts lines 165-232),
unrolled from attempt index `attempt` with `remaining = retries - attempt`
iterations left: a successful attempt returns the body; a failed attempt
breaks when the index equals `retries` (`remaining = 0`) or the error is not
retryable, and otherwise sleeps for the computed delay and continues. -/
def requestGo {T : Type} (retryDelay : ℚ) (outcomes : Nat → RawOutcome T)
    (rand : Nat → ℚ) : Option RateLimitInfo → Nat → Nat → RequestTrace T
  | st, attempt, remaining =>
    match axiosAttempt st (outcomes attempt) with
    | (_, Except.ok v) => ⟨Except.ok v, attempt + 1, []⟩
    | (st2, Except.error e) =>
      match remaining with
      | 0 => ⟨Except.error e, attempt + 1, []⟩
      | Nat.succ r =>
        if isRetryableError e then
          let d := computeRetryDelay attempt retryDelay (rand attempt) e
          let rest := requestGo retryDelay outcomes rand st2 (attempt + 1) r
          ⟨rest.result, rest.attempts, d :: rest.delays⟩
        else ⟨Except.error e, attempt + 1, []⟩

/-- One call of `HttpClient.request`: run the retry loop from attempt 0 with
`retries` retries left and no rate-limit snapshot. -/
def request {T : Type} (retries : Nat) (retryDelay : ℚ)
    (outcomes : Nat → RawOutcome T) (rand : Nat → ℚ) : RequestTrace T :=
  requestGo retryDelay outcomes rand none 0 retries

/-- `ProxyCheckOptions` from `src/types`: the option bag consumed by the
request-building helpers (every field optional). -/
structure ProxyCheckOptions where
  apiKey : Option String
  asnData : Option Bool
  allowedCountries : Option (List String)
  blockedCountries : Option (List String)
  tlsSecurity : Option Bool
  infEngine : Option Bool
  riskData : Option Nat
  vpnDetection : Option Nat
  dayRestrictor : Option Int
  queryTagging : Option Bool
  customTag : Option String
  maskAddress : Option Bool
deriving DecidableEq

/-- The `string | Array<string>` address argument. -/
inductive Addresses where
  | single (address : String)
  | arr (addresses : List String)
deriving DecidableEq

/-- The POST body built by `buildPostData`. -/
structure PostData where
  ips : Option String
  tag : Option String
deriving DecidableEq

/-- `buildPostData` (src/config/index.ts lines 321-338): `ips` is the
comma-join of the addresses exactly when the argument is an array of more
than one address; `tag` is the custom tag exactly when `queryTagging` and
`customTag` are both truthy. -/
def buildPostData (options : ProxyCheckOptions) (addresses : Option Addresses) :
    PostData :=
  let ips := match addresses with
    | some (Addresses.arr l) =>
      if 1 < l.length then some (String.intercalate "," l) else none
    | _ => none
  let tag := if options.queryTagging = some true ∧ truthyStr options.customTag then
      options.customTag
    else none
  ⟨ips, tag⟩

/-- `shouldUsePostMethod` (src/config/index.ts lines 343-345). -/
def shouldUsePostMethod (addresses : Option Addresses) : Bool :=
  match addresses with
  | some (Addresses.arr l) => decide (1 < l.length)
  | _ => false

/-- Model of JS `String.prototype.split(sep)` for a one-character separator,
on the character list of the string. -/
def jsSplitOn (sep : Char) : List Char → List (List Char)
  | [] => [[]]
  | c :: rest =>
    match jsSplitOn sep rest with
    | [] => [[]]
    | h :: t => if c = sep then [] :: h :: t else (c :: h) :: t

/-- The `maskEmail` closure of `processAddresses` (src/config/index.ts lines
354-360): an address containing `@` becomes `anonymous@` followed by the
second element of its split on `@`; other addresses pass through. The
`getD 1 []` fallback is unreachable because the guard guarantees at least two
split parts. -/
def maskEmail (address : String) : String :=
  if address.toList.contains '@' then
    String.mk ("anonymous@".toList ++ (jsSplitOn '@' address.toList).getD 1 [])
  else address

/-- `processAddresses` (src/config/index.ts lines 350-371). -/
def processAddresses (addresses : Addresses) (maskAddress : Bool) : Addresses :=
  if !maskAddress then addresses
  else match addresses with
    | Addresses.arr l => Addresses.arr (l.map maskEmail)
    | Addresses.single s => Addresses.single (maskEmail s)

/-- The country-restriction condition of `mergeCountryOptions`: either list is
present and non-empty (arrays are always truthy in JS, so only the length
check matters). -/
def hasCountryRestrictions (options : ProxyCheckOptions) : Bool :=
  (match options.allowedCountries with
   | some l => decide (0 < l.length)
   | none => false) ||
  (match options.blockedCountries with
   | some l => decide (0 < l.length)
   | none => false)

/-- `mergeCountryOptions` (src/config/index.ts lines 376-388): force-enable
`asnData` when a country restriction is set, otherwise return a copy of the
input. -/
def mergeCountryOptions (options : ProxyCheckOptions) : ProxyCheckOptions :=
  if hasCountryRestrictions options then { options with asnData := some true }
  else options

/-- Whether an error carries a server-error (at least 500) status code. -/
def hasServerStatus (e : PCError) : Bool :=
  match e.statusCode with
  | some sc => decide (500 ≤ sc)
  | none => false

/-- Headers of a response with no rate-limit information. -/
def emptyHeaders : Headers := ⟨none, none, none, none, none⟩

/-- A 404 error response carried by a raw failure. -/
def resp404 : RawResponse := ⟨404, ⟨some "Not found", none⟩, emptyHeaders⟩

/-- A raw transport failure with a structured 404 response. -/
def raw404 : RawError := ⟨some resp404, none, none, none, false, false⟩

/-- Rate-limit headers of a 429 response, with `retry-after` absent. -/
def hdrs429 : Headers := ⟨some "100", some "0", some "1700000000", none, none⟩

/-- A 429 error response whose `retry-after` header is absent. -/
def resp429 : RawResponse := ⟨429, ⟨some "Too many requests", none⟩, hdrs429⟩

/-- A raw transport failure with a structured 429 response. -/
def raw429 : RawError := ⟨some resp429, none, none, none, false, false⟩

/-- An option bag with every field unset. -/
def emptyOptions : ProxyCheckOptions :=
  ⟨none, none, none, none, none, none, none, none, none, none, none, none⟩

/-- A dummy rate-limit snapshot used to show snapshot replacement ignores the
previous value. -/
def dummyInfo : RateLimitInfo := ⟨some 7, some 7, some 7, some 7⟩

example : isRetryableError (PCError.auth "x") = false := by decide
example : isRetryableError (PCError.timeout "x" 5) = true := by decide
example : isRetryableError (PCError.rateLimit "x" none none none (some 5)) = true := by decide
example : parseIntJS "1700000000" = some 1700000000 := by decide
example : parseIntJS "30" = some 30 := by decide
example : parseIntJS "abc" = none := by decide
example : parseIntJS "-12x" = some (-12) := by decide

/-- Claim C4: for every attempt index and base delay, the computed backoff
delay equals `baseDelay * 2 ^ attempt` plus a jitter term in `[0, 1000)`,
hence lies in `[baseDelay * 2 ^ attempt, baseDelay * 2 ^ attempt + 1000)`,
under the hypothesis that the random source yields a value in `[0, 1)`. -/
theorem C4_backoff_delay_bounds (attempt : Nat) (baseDelay rand : ℚ)
    (h0 : 0 ≤ rand) (h1 : rand < 1) :
    baseDelay * 2 ^ attempt ≤ calculateDelay attempt baseDelay rand ∧
    calculateDelay attempt baseDelay rand < baseDelay * 2 ^ attempt + 1000 := by
  unfold calculateDelay
  constructor
  · nlinarith
  · nlinarith

/-- Witness for C4 at `attempt = 0`, `baseDelay = 1000`, `rand = 1/2`. -/
theorem C4_backoff_witness :
    (0 : ℚ) ≤ 1/2 ∧ (1/2 : ℚ) < 1 ∧
    ((1000 : ℚ) * 2 ^ 0 ≤ calculateDelay 0 1000 (1/2) ∧
      calculateDelay 0 1000 (1/2) < 1000 * 2 ^ 0 + 1000) :=
  ⟨by norm_num, by norm_num,
    C4_backoff_delay_bounds 0 1000 (1/2) (by norm_num) (by norm_num)⟩

/-- Counterexample to claim C3 as stated: a rate-limit error whose
`retryAfter` is 0 does not override the backoff, because the source guards
the override with the truthiness of `error.retryAfter` and 0 is falsy; the
delay is the exponential backoff (1000 ms here), not `0 * 1000 = 0` ms. -/
theorem C3_zero_retryAfter_counterexample :
    computeRetryDelay 0 1000 0
      (PCError.rateLimit "Rate limit exceeded" (some 100) (some 0) (some 0) (some 0)) ≠
      (0 : ℚ) * 1000 := by
  norm_num [computeRetryDelay, calculateDelay]

/-- Claim C3 (amended): for every rate-limit error whose `retryAfter` is a
truthy number `r` (any non-zero integer, `NaN` excluded), the retry delay is
exactly `r * 1000` milliseconds, overriding the exponential backoff. -/
theorem C3_retryAfter_override (attempt : Nat) (baseDelay rand : ℚ)
    (msg : String) (limit remaining reset : Option Int) (r : Int) (hr : r ≠ 0) :
    computeRetryDelay attempt baseDelay rand
      (PCError.rateLimit msg limit remaining reset (some r)) = (r : ℚ) * 1000 := by
  simp [computeRetryDelay, hr]

/-- Witness for C3 (amended) at `r = 5`: the delay is exactly 5000 ms. -/
theorem C3_override_witness :
    computeRetryDelay 0 1000 (1/2)
      (PCError.rateLimit "Rate limit exceeded" (some 100) (some 0) (some 0) (some 5)) =
      (5 : ℚ) * 1000 :=
  C3_retryAfter_override 0 1000 (1/2) "Rate limit exceeded"
    (some 100) (some 0) (some 0) 5 (by norm_num)

/-- The JS split model never returns an empty list of parts. -/
lemma jsSplitOn_ne_nil (sep : Char) (l : List Char) : jsSplitOn sep l ≠ [] := by
  cases l with
  | nil => simp [jsSplitOn]
  | cons c rest =>
    simp only [jsSplitOn]
    cases h : jsSplitOn sep rest with
    | nil => simp
    | cons hh tt => by_cases hc : c = sep <;> simp [hc]

/-- Splitting a list free of the separator yields that list as the only part. -/
lemma jsSplitOn_no_sep (sep : Char) (d : List Char) (h : d.contains sep = false) :
    jsSplitOn sep d = [d] := by
  induction d with
  | nil => rfl
  | cons c rest ih =>
    simp only [List.contains_cons, Bool.or_eq_false_iff, beq_eq_false_iff_ne] at h
    simp only [jsSplitOn, ih h.2]
    have hc : ¬ c = sep := fun hcc => h.1 hcc.symm
    simp [hc]

/-- Splitting `l ++ sep :: d` where `l` is free of the separator peels off `l`
as the first part. -/
lemma jsSplitOn_append (sep : Char) (l d : List Char) (h : l.contains sep = false) :
    jsSplitOn sep (l ++ sep :: d) = l :: jsSplitOn sep d := by
  induction l with
  | nil =>
    simp only [List.nil_append, jsSplitOn]
    cases hd : jsSplitOn sep d with
    | nil => exact absurd hd (jsSplitOn_ne_nil sep d)
    | cons hh tt => simp
  | cons c rest ih =>
    simp only [List.contains_cons, Bool.or_eq_false_iff, beq_eq_false_iff_ne] at h
    have hc : ¬ c = sep := fun hcc => h.1 hcc.symm
    simp only [List.cons_append, jsSplitOn, List.append_eq]
    rw [ih h.2]
    simp [hc]

/-- Claim C10: with masking enabled, `processAddresses` rewrites every address
containing `@` to `anonymous@` followed by the domain part, leaves addresses
without `@` unchanged, and acts uniformly on single and array inputs; with
masking disabled it returns the input unchanged. The domain part is stated
for addresses with a single `@`, where it is the part after the `@`. -/
theorem C10_processAddresses_masking :
    (∀ a : Addresses, processAddresses a false = a) ∧
    (∀ s : String, processAddresses (Addresses.single s) true =
      Addresses.single (maskEmail s)) ∧
    (∀ l : List String, processAddresses (Addresses.arr l) true =
      Addresses.arr (l.map maskEmail)) ∧
    (∀ s : String, s.toList.contains '@' = false → maskEmail s = s) ∧
    (∀ l d : List Char, l.contains '@' = false → d.contains '@' = false →
      maskEmail (String.mk (l ++ '@' :: d)) =
        String.mk ("anonymous@".toList ++ d)) := by
  refine ⟨fun a => rfl, fun s => rfl, fun l => rfl, ?_, ?_⟩
  · intro s h
    unfold maskEmail
    have h2 : ¬ (s.toList.contains '@' = true) := by
      rw [h]
      exact Bool.false_ne_true
    rw [if_neg h2]
  · intro l d hl hd
    unfold maskEmail
    have htl : (String.mk (l ++ '@' :: d)).toList = l ++ '@' :: d := rfl
    have hcon : (l ++ '@' :: d).contains '@' = true := by
      simp
    rw [htl, hcon, if_pos rfl, jsSplitOn_append '@' l d hl, jsSplitOn_no_sep '@' d hd]
    rfl

/-- Witness for C10 at the spec's own example: `user@domain.com` becomes
`anonymous@domain.com`, and a plain IP passes through untouched. -/
theorem C10_masking_witness :
    maskEmail (String.mk ("user".toList ++ '@' :: "domain.com".toList)) =
      String.mk ("anonymous@".toList ++ "domain.com".toList) ∧
    maskEmail "8.8.8.8" = "8.8.8.8" ∧
    processAddresses (Addresses.single "a@b.c") false = Addresses.single "a@b.c" :=
  ⟨C10_processAddresses_masking.2.2.2.2 "user".toList "domain.com".toList
      (by decide) (by decide),
    C10_processAddresses_masking.2.2.2.1 "8.8.8.8" (by decide),
    C10_processAddresses_masking.1 (Addresses.single "a@b.c")⟩

/-- Claim C8: `buildPostData` sets the `ips` field (comma-joined) exactly when
the address argument is an array of more than one address, adds the `tag`
field exactly when query-tagging is enabled and a custom tag string is
present, and returns an empty body when neither condition holds. -/
theorem C8_buildPostData_shape (o : ProxyCheckOptions) (a : Option Addresses) :
    ((buildPostData o a).ips ≠ none ↔
      ∃ l, a = some (Addresses.arr l) ∧ 1 < l.length) ∧
    (∀ l, a = some (Addresses.arr l) → 1 < l.length →
      (buildPostData o a).ips = some (String.intercalate "," l)) ∧
    ((buildPostData o a).tag ≠ none ↔
      o.queryTagging = some true ∧ truthyStr o.customTag = true) ∧
    (o.queryTagging = some true → truthyStr o.customTag = true →
      (buildPostData o a).tag = o.customTag) ∧
    ((∀ l, a = some (Addresses.arr l) → l.length ≤ 1) →
      ¬ (o.queryTagging = some true ∧ truthyStr o.customTag = true) →
      buildPostData o a = ⟨none, none⟩) := by
  have htag : (buildPostData o a).tag =
      if o.queryTagging = some true ∧ truthyStr o.customTag then o.customTag
      else none := by
    cases a with
    | none => rfl
    | some aa => cases aa <;> rfl
  refine ⟨?_, ?_, ?_, ?_, ?_⟩
  · match a with
    | none => simp [buildPostData]
    | some (Addresses.single s) => simp [buildPostData]
    | some (Addresses.arr l) =>
      by_cases hl : 1 < l.length
      · simp [buildPostData, hl]
      · simp only [buildPostData, if_neg hl]
        constructor
        · intro hcon
          exact absurd rfl hcon
        · rintro ⟨l2, hl2, hlen⟩
          cases hl2
          exact absurd hlen hl
  · intro l hal hlen
    subst hal
    simp [buildPostData, hlen]
  · rw [htag]
    by_cases hq : o.queryTagging = some true ∧ truthyStr o.customTag = true
    · rw [if_pos ⟨hq.1, hq.2⟩]
      simp only [hq, and_true, iff_true]
      intro hnone
      have h3 := hq.2
      rw [hnone] at h3
      exact absurd h3 (by decide)
    · have hq2 : ¬ (o.queryTagging = some true ∧ truthyStr o.customTag = true) := hq
      rw [if_neg (fun hcc => hq2 ⟨hcc.1, hcc.2⟩)]
      simp [hq2]
  · intro h1 h2
    rw [htag, if_pos ⟨h1, h2⟩]
  · intro hlen hq
    have hips : (buildPostData o a).ips = none := by
      match a with
      | none => rfl
      | some (Addresses.single s) => rfl
      | some (Addresses.arr l) =>
        have := hlen l rfl
        simp [buildPostData, Nat.not_lt.mpr this]
    have htag2 : (buildPostData o a).tag = none := by
      rw [htag, if_neg (fun hcc => hq ⟨hcc.1, hcc.2⟩)]
    match hbd : buildPostData o a with
    | ⟨i, t⟩ =>
      rw [hbd] at hips htag2
      simp only at hips htag2
      rw [hips, htag2]

/-- Witness for C8: two addresses are comma-joined into `ips`, and an enabled
tag is added; with one address and no tag the body is empty. -/
theorem C8_buildPostData_witness :
    (buildPostData
        ⟨none, none, none, none, none, none, none, none, none, some true, some "staging", none⟩
        (some (Addresses.arr ["8.8.8.8", "1.1.1.1"]))).ips =
      some "8.8.8.8,1.1.1.1" ∧
    (buildPostData
        ⟨none, none, none, none, none, none, none, none, none, some true, some "staging", none⟩
        (some (Addresses.arr ["8.8.8.8", "1.1.1.1"]))).tag = some "staging" ∧
    buildPostData emptyOptions (some (Addresses.single "8.8.8.8")) = ⟨none, none⟩ := by
  refine ⟨?_, ?_, ?_⟩
  · exact ((C8_buildPostData_shape _ _).2.1 ["8.8.8.8", "1.1.1.1"] rfl
      (by decide)).trans (by decide)
  · exact (C8_buildPostData_shape
      ⟨none, none, none, none, none, none, none, none, none, some true, some "staging", none⟩
      (some (Addresses.arr ["8.8.8.8", "1.1.1.1"]))).2.2.2.1 rfl (by decide)
  · exact (C8_buildPostData_shape emptyOptions
      (some (Addresses.single "8.8.8.8"))).2.2.2.2
      (fun l hl => by cases hl) (by decide)

/-- Claim C9: `mergeCountryOptions` sets `asnData` to true whenever either
country list is a present non-empty array, otherwise returns its input
unchanged; every field other than `asnData` is unchanged in both cases, and
the country-filter fields themselves are never modified. -/
theorem C9_mergeCountryOptions_asn (o : ProxyCheckOptions) :
    ((∃ l, o.allowedCountries = some l ∧ l ≠ []) ∨
      (∃ l, o.blockedCountries = some l ∧ l ≠ []) →
      mergeCountryOptions o = { o with asnData := some true }) ∧
    (¬ ((∃ l, o.allowedCountries = some l ∧ l ≠ []) ∨
        (∃ l, o.blockedCountries = some l ∧ l ≠ [])) →
      mergeCountryOptions o = o) ∧
    { mergeCountryOptions o with asnData := o.asnData } = o ∧
    (mergeCountryOptions o).allowedCountries = o.allowedCountries ∧
    (mergeCountryOptions o).blockedCountries = o.blockedCountries := by
  have hiff : hasCountryRestrictions o = true ↔
      ((∃ l, o.allowedCountries = some l ∧ l ≠ []) ∨
        (∃ l, o.blockedCountries = some l ∧ l ≠ [])) := by
    unfold hasCountryRestrictions
    cases ha : o.allowedCountries <;> cases hb : o.blockedCountries <;>
      simp [List.length_pos]
  have hsplit : (hasCountryRestrictions o = true ∧
      mergeCountryOptions o = { o with asnData := some true }) ∨
      (hasCountryRestrictions o = false ∧ mergeCountryOptions o = o) := by
    unfold mergeCountryOptions
    cases hc : hasCountryRestrictions o
    · right
      exact ⟨rfl, by simp⟩
    · left
      exact ⟨rfl, by simp⟩
  refine ⟨?_, ?_, ?_, ?_, ?_⟩
  · intro hcond
    rcases hsplit with ⟨_, he⟩ | ⟨hc, _⟩
    · exact he
    · rw [hiff.mpr hcond] at hc
      cases hc
  · intro hcond
    rcases hsplit with ⟨hc, _⟩ | ⟨_, he⟩
    · exact absurd (hiff.mp hc) hcond
    · exact he
  · rcases hsplit with ⟨_, he⟩ | ⟨_, he⟩ <;> rw [he]
  · rcases hsplit with ⟨_, he⟩ | ⟨_, he⟩ <;> rw [he]
  · rcases hsplit with ⟨_, he⟩ | ⟨_, he⟩ <;> rw [he]

/-- Witness for C9: a one-country allow-list forces `asnData := some true`
while touching nothing else, and an empty option bag passes through. -/
theorem C9_mergeCountryOptions_witness :
    mergeCountryOptions
        ⟨none, none, some ["US"], none, none, none, none, none, none, none, none, none⟩ =
      ⟨none, some true, some ["US"], none, none, none, none, none, none, none, none, none⟩ ∧
    mergeCountryOptions emptyOptions = emptyOptions := by
  constructor
  · exact (C9_mergeCountryOptions_asn _).1 (Or.inl ⟨["US"], rfl, by decide⟩)
  · exact (C9_mergeCountryOptions_asn emptyOptions).2.1
      (by rintro (⟨l, hl, _⟩ | ⟨l, hl, _⟩) <;> cases hl)

/-- Claim C5: after every response (success or error-with-response) whose
headers carry rate-limit information (a truthy `x-ratelimit-limit` header),
the snapshot is wholly replaced, independently of the previous snapshot, by
the tuple parsed from the headers, with `remaining` and `retryAfter`
defaulting to 0 when their headers are missing and `reset` being the
epoch-seconds header times 1000; with no rate-limit headers the snapshot is
left unchanged. -/
theorem C5_rateLimit_snapshot (T : Type) (h : Headers)
    (s s2 : Option RateLimitInfo) (resp : SuccessResponse T)
    (raw : RawError) (r2 : RawResponse) :
    (truthyStr h.xRateLimitLimit = true →
      updateRateLimitInfo h s = updateRateLimitInfo h s2 ∧
      updateRateLimitInfo h s = some
        { limit := parseIntJS (jsToString h.xRateLimitLimit)
          remaining := parseIntJS (jsOrStr h.xRateLimitRemaining "0")
          reset := (parseIntJS (jsOrStr h.xRateLimitReset "0")).map (fun n => n * 1000)
          retryAfter := parseIntJS (jsOrStr h.retryAfterHeader "0") } ∧
      (h.xRateLimitRemaining = none →
        ∃ info, updateRateLimitInfo h s = some info ∧ info.remaining = some 0) ∧
      (h.retryAfterHeader = none →
        ∃ info, updateRateLimitInfo h s = some info ∧ info.retryAfter = some 0)) ∧
    (truthyStr h.xRateLimitLimit = false → updateRateLimitInfo h s = s) ∧
    (axiosAttempt s (RawOutcome.ok resp)).1 = updateRateLimitInfo resp.headers s ∧
    (raw.response = some r2 →
      (axiosAttempt s (RawOutcome.err raw : RawOutcome T)).1 =
        updateRateLimitInfo r2.headers s) ∧
    (raw.response = none →
      (axiosAttempt s (RawOutcome.err raw : RawOutcome T)).1 = s) := by
  refine ⟨?_, ?_, rfl, ?_, ?_⟩
  · intro ht
    unfold updateRateLimitInfo
    rw [if_pos ht, if_pos ht]
    refine ⟨rfl, rfl, ?_, ?_⟩
    · intro hrm
      rw [hrm]
      exact ⟨_, rfl, rfl⟩
    · intro hra
      rw [hra]
      exact ⟨_, rfl, rfl⟩
  · intro ht
    unfold updateRateLimitInfo
    rw [ht]
    simp
  · intro hresp
    simp [axiosAttempt, hresp]
  · intro hresp
    simp [axiosAttempt, hresp]

/-- Witness for C5: with `x-ratelimit-limit: 100`, `x-ratelimit-reset:
1700000000` and the other headers missing, the snapshot becomes
(100, 0, 1700000000000, 0) regardless of the previous snapshot, and headers
without rate-limit information leave the snapshot untouched. -/
theorem C5_snapshot_witness :
    updateRateLimitInfo ⟨some "100", none, some "1700000000", none, none⟩ none =
      updateRateLimitInfo ⟨some "100", none, some "1700000000", none, none⟩
        (some dummyInfo) ∧
    updateRateLimitInfo ⟨some "100", none, some "1700000000", none, none⟩ none =
      some ⟨some 100, some 0, some 1700000000000, some 0⟩ ∧
    updateRateLimitInfo emptyHeaders (some dummyInfo) = some dummyInfo := by
  have t := C5_rateLimit_snapshot Unit ⟨some "100", none, some "1700000000", none, none⟩
    none (some dummyInfo) ⟨200, Unit.unit, emptyHeaders⟩ raw404 resp404
  have t2 := C5_rateLimit_snapshot Unit emptyHeaders (some dummyInfo) none
    ⟨200, Unit.unit, emptyHeaders⟩ raw404 resp404
  exact ⟨(t.1 (by decide)).1, ((t.1 (by decide)).2.1).trans (by decide),
    t2.2.1 (by decide)⟩

/-- Claim C6: for every raw transport failure carrying a structured response
with status 429, `createErrorFromResponse` returns a RateLimitError whose
limit, remaining and reset fields are parsed from the `x-ratelimit-*` headers
(reset as epoch seconds times 1000) and whose retryAfter comes from the
`retry-after` header, defaulting to 60 when that header is absent. -/
theorem C6_rateLimit_from_429 (raw : RawError) (resp : RawResponse)
    (h1 : raw.response = some resp) (h2 : resp.status = 429) :
    createErrorFromResponse raw = PCError.rateLimit "Rate limit exceeded"
      (parseIntJS (jsOrStr resp.headers.xRateLimitLimit "0"))
      (parseIntJS (jsOrStr resp.headers.xRateLimitRemaining "0"))
      ((parseIntJS (jsOrStr resp.headers.xRateLimitReset "0")).map (fun n => n * 1000))
      (parseIntJS (jsOrStr resp.headers.retryAfterHeader "60")) ∧
    (resp.headers.retryAfterHeader = none →
      parseIntJS (jsOrStr resp.headers.retryAfterHeader "60") = some 60) := by
  constructor
  · unfold createErrorFromResponse
    rw [h1]
    simp [h2]
  · intro hra
    rw [hra]
    decide

/-- Witness for C6: a 429 response with limit 100, remaining 0, reset
1700000000 and no `retry-after` header yields a RateLimitError with
retryAfter 60 and reset 1700000000000. -/
theorem C6_429_witness :
    createErrorFromResponse raw429 = PCError.rateLimit "Rate limit exceeded"
      (some 100) (some 0) (some 1700000000000) (some 60) :=
  ((C6_rateLimit_from_429 raw429 resp429 rfl rfl).1).trans (by decide)

/-- Retryability of an APIError is exactly the server-error test on its
status code. -/
lemma isRetryable_apiError (msg : String) (sc : Int) (d : RawData)
    (rid : Option String) :
    isRetryableError (PCError.apiError msg sc d rid) = decide (500 ≤ sc) := by
  unfold isRetryableError
  simp only [PCError.statusCode]
  by_cases h1 : 400 ≤ sc ∧ sc < 500
  · rw [if_pos h1]
    have h2 : ¬ (500 ≤ sc) := by omega
    simp [isRateLimitError, h2]
  · rw [if_neg h1]
    by_cases h2 : 500 ≤ sc
    · simp [h2]
    · simp [h2, retryableCode, PCError.code]

/-- For every error whose base-variant instances carry code `API_ERROR` and
no status code (the only base errors the factory produces), retryability is
the disjunction of the rate-limit guard, a server status and a
network/timeout code. -/
lemma isRetryable_eq_of_shape (e : PCError)
    (hb : ∀ m c s, e = PCError.base m c s → c = "API_ERROR" ∧ s = none) :
    isRetryableError e =
      (isRateLimitError e || hasServerStatus e || retryableCode e) := by
  cases e with
  | base m c s =>
    obtain ⟨hc, hs⟩ := hb m c s rfl
    subst hc
    subst hs
    simp [isRetryableError, PCError.statusCode, isRateLimitError, hasServerStatus,
      retryableCode, PCError.code]
  | apiError m sc d rid =>
    rw [isRetryable_apiError]
    simp [isRateLimitError, hasServerStatus, PCError.statusCode, retryableCode,
      PCError.code]
  | validation m f =>
    simp [isRetryableError, PCError.statusCode, isRateLimitError, hasServerStatus,
      retryableCode, PCError.code]
  | rateLimit m a b c r =>
    norm_num [isRetryableError, PCError.statusCode, isRateLimitError, hasServerStatus,
      retryableCode, PCError.code]
  | network m ho =>
    simp [isRetryableError, PCError.statusCode, isRateLimitError, hasServerStatus,
      retryableCode, PCError.code]
  | auth m =>
    norm_num [isRetryableError, PCError.statusCode, isRateLimitError, hasServerStatus,
      retryableCode, PCError.code]
    decide
  | timeout m t =>
    simp [isRetryableError, PCError.statusCode, isRateLimitError, hasServerStatus,
      retryableCode, PCError.code]

/-- A non-429 client-error status is never retryable. -/
lemma isRetryable_4xx_false (e : PCError) (sc : Int)
    (hsc : e.statusCode = some sc) (h4 : 400 ≤ sc) (h5 : sc < 500)
    (hne : sc ≠ 429) :
    isRetryableError e = false := by
  unfold isRetryableError
  rw [hsc]
  simp only []
  rw [if_pos ⟨h4, h5⟩]
  cases e with
  | rateLimit m a b c r =>
    simp only [PCError.statusCode, Option.some.injEq] at hsc
    omega
  | base m c s => rfl
  | apiError m sc2 d rid => rfl
  | validation m f => rfl
  | network m ho => rfl
  | auth m => rfl
  | timeout m t => rfl

/-- Every error the factory produces as the generic base variant carries code
`API_ERROR` and no status code. -/
lemma createError_base_shape (raw : RawError) (m c : String) (s : Option Int)
    (h : createErrorFromResponse raw = PCError.base m c s) :
    c = "API_ERROR" ∧ s = none := by
  unfold createErrorFromResponse at h
  cases hr : raw.response with
  | some r =>
    rw [hr] at h
    simp only [] at h
    by_cases h429 : r.status = 429
    · rw [if_pos h429] at h
      exact PCError.noConfusion h
    · rw [if_neg h429] at h
      by_cases h401 : r.status = 401
      · rw [if_pos h401] at h
        exact PCError.noConfusion h
      · rw [if_neg h401] at h
        exact PCError.noConfusion h
  | none =>
    rw [hr] at h
    simp only [] at h
    by_cases hc : raw.code = some "ECONNABORTED"
    · rw [if_pos hc] at h
      exact PCError.noConfusion h
    · rw [if_neg hc] at h
      by_cases hm : (match raw.message with
          | some mm => jsIncludes mm "timeout"
          | none => false) = true
      · rw [if_pos hm] at h
        exact PCError.noConfusion h
      · rw [if_neg hm] at h
        by_cases hq : raw.hasRequest = true
        · rw [if_pos hq] at h
          exact PCError.noConfusion h
        · rw [if_neg hq] at h
          injection h with h1 h2 h3
          exact ⟨h2.symm, h3.symm⟩

/-- Claim C1: over every error the engine classifies (the image of the error
factory, which is what the response interceptor feeds into the retry loop),
`isRetryableError` returns true exactly for rate-limit errors, errors with a
status code of at least 500, and errors whose code is `NETWORK_ERROR` or
`TIMEOUT_ERROR`; in particular every error with a 4xx status other than 429
is not retryable. -/
theorem C1_isRetryable_classification (raw : RawError) :
    (isRetryableError (createErrorFromResponse raw) =
      (isRateLimitError (createErrorFromResponse raw) ||
        hasServerStatus (createErrorFromResponse raw) ||
        retryableCode (createErrorFromResponse raw))) ∧
    (∀ sc : Int, (createErrorFromResponse raw).statusCode = some sc →
      400 ≤ sc → sc < 500 → sc ≠ 429 →
      isRetryableError (createErrorFromResponse raw) = false) := by
  constructor
  · exact isRetryable_eq_of_shape (createErrorFromResponse raw)
      (fun m c s h => createError_base_shape raw m c s h)
  · intro sc hsc h4 h5 hne
    exact isRetryable_4xx_false (createErrorFromResponse raw) sc hsc h4 h5 hne

/-- Witness for C1: the typed error built from a structured 404 response is
not retryable, while the one built from a 429 response is. -/
theorem C1_classification_witness :
    isRetryableError (createErrorFromResponse raw404) = false ∧
    isRetryableError (createErrorFromResponse raw429) = true := by
  constructor
  · exact (C1_isRetryable_classification raw404).2 404 (by decide) (by decide)
      (by decide) (by decide)
  · exact ((C1_isRetryable_classification raw429).1).trans (by decide)

/-- Unfolding equation of the retry loop at the last attempt
(`attempt = retries`): the outcome is returned or the error re-raised. -/
lemma requestGo_zero {T : Type} (rd : ℚ) (o : Nat → RawOutcome T) (r : Nat → ℚ)
    (st : Option RateLimitInfo) (a : Nat) :
    requestGo rd o r st a 0 =
      match axiosAttempt st (o a) with
      | (_, Except.ok v) => ⟨Except.ok v, a + 1, []⟩
      | (_, Except.error e) => ⟨Except.error e, a + 1, []⟩ := by
  cases h : axiosAttempt st (o a) with
  | mk st2 res =>
    cases res <;> simp [requestGo, h]

/-- Unfolding equation of the retry loop with retries remaining. -/
lemma requestGo_succ {T : Type} (rd : ℚ) (o : Nat → RawOutcome T) (r : Nat → ℚ)
    (st : Option RateLimitInfo) (a rr : Nat) :
    requestGo rd o r st a (rr + 1) =
      match axiosAttempt st (o a) with
      | (_, Except.ok v) => ⟨Except.ok v, a + 1, []⟩
      | (st2, Except.error e) =>
        if isRetryableError e then
          let d := computeRetryDelay a rd (r a) e
          let rest := requestGo rd o r st2 (a + 1) rr
          ⟨rest.result, rest.attempts, d :: rest.delays⟩
        else ⟨Except.error e, a + 1, []⟩ := by
  conv_lhs => rw [requestGo]

/-- The retry loop started at attempt `a` with `remaining` retries left
performs at most `a + remaining + 1` attempts in total. -/
lemma requestGo_attempts_le {T : Type} (rd : ℚ) (o : Nat → RawOutcome T)
    (r : Nat → ℚ) :
    ∀ (remaining a : Nat) (st : Option RateLimitInfo),
      (requestGo rd o r st a remaining).attempts ≤ a + remaining + 1 := by
  intro remaining
  induction remaining with
  | zero =>
    intro a st
    rw [requestGo_zero]
    cases h : axiosAttempt st (o a) with
    | mk st2 res =>
      cases res <;> simp
  | succ rr ih =>
    intro a st
    rw [requestGo_succ]
    cases h : axiosAttempt st (o a) with
    | mk st2 res =>
      cases res with
      | ok v =>
        simp
      | error e =>
        by_cases he : isRetryableError e = true
        · simp only [he, if_true]
          have hrec := ih (a + 1) st2
          simp
          omega
        · simp only [Bool.not_eq_true] at he
          simp [he]

/-- Claim C2: one call of `request()` performs at most `retries + 1` transport
attempts, for every retry configuration and every sequence of transport
outcomes; the loop is a total function, so it always terminates. -/
theorem C2_request_attempt_bound (T : Type) (retries : Nat) (retryDelay : ℚ)
    (outcomes : Nat → RawOutcome T) (rand : Nat → ℚ) :
    (request retries retryDelay outcomes rand).attempts ≤ retries + 1 := by
  have h := requestGo_attempts_le retryDelay outcomes rand retries 0 none
  simpa [request] using h

/-- The result of the retry loop is either a returned body or the typed error
produced by `createErrorFromResponse` from the raw failure of some attempt. -/
lemma requestGo_result_provenance {T : Type} (rd : ℚ) (o : Nat → RawOutcome T)
    (r : Nat → ℚ) :
    ∀ (remaining a : Nat) (st : Option RateLimitInfo),
      (∃ v, (requestGo rd o r st a remaining).result = Except.ok v) ∨
      (∃ i raw, o i = RawOutcome.err raw ∧
        (requestGo rd o r st a remaining).result =
          Except.error (createErrorFromResponse raw)) := by
  intro remaining
  induction remaining with
  | zero =>
    intro a st
    rw [requestGo_zero]
    cases ho : o a with
    | ok resp =>
      left
      refine ⟨resp.data, ?_⟩
      simp [axiosAttempt, ho]
    | err raw =>
      right
      refine ⟨a, raw, ho, ?_⟩
      simp [axiosAttempt, ho]
  | succ rr ih =>
    intro a st
    rw [requestGo_succ]
    cases ho : o a with
    | ok resp =>
      left
      refine ⟨resp.data, ?_⟩
      simp [axiosAttempt, ho]
    | err raw =>
      by_cases he : isRetryableError (createErrorFromResponse raw) = true
      · simp only [ho, axiosAttempt, he, if_true]
        exact ih (a + 1) _
      · simp only [Bool.not_eq_true] at he
        right
        refine ⟨a, raw, ho, ?_⟩
        simp [axiosAttempt, ho, he]

/-- Claim C7: every error `request()` raises is the typed error built by
`createErrorFromResponse` from the raw transport failure of one of the
attempts; since that factory's codomain is the closed inductive of the seven
ProxyCheck error variants, no raw transport failure escapes the engine. -/
theorem C7_typed_errors_only (T : Type) (retries : Nat) (retryDelay : ℚ)
    (outcomes : Nat → RawOutcome T) (rand : Nat → ℚ) :
    (∃ v, (request retries retryDelay outcomes rand).result = Except.ok v) ∨
    (∃ i raw, outcomes i = RawOutcome.err raw ∧
      (request retries retryDelay outcomes rand).result =
        Except.error (createErrorFromResponse raw)) :=
  requestGo_result_provenance retryDelay outcomes rand retries 0 none
